import Mathlib

/-!
Verification development for the gradder school-management backend.

The definitions below are a shallow embedding of the Python source:

* `src/backend/api/classes/user.py` — the `User` base class with its
  validating property setters (email, password, bio, date_of_birth, id, ...);
* `src/backend/api/classes/student.py` — `Student` with `to_dict`,
  `from_dict`, `add`, the data-access wrappers and `add_submission`;
* `src/api/classes/parent.py` — `Parent` data-access wrappers;
* `src/backend/api/modules/auth/routes.py` — the `login` endpoint;
* `src/app/modules/db/classes/user.py` — the legacy `User` class with
  `set_password` / `verify_password` / `new_id`.

Python exceptions are embedded as `Except`; the document store is embedded
as explicit lists of documents, and the outcome of an individual store call
(success / raised exception) is a parameter where the source wraps the call
in a broad `try/except`.  bcrypt is modelled as an idealised salted hash:
`hashpw` pairs the salt with the plaintext and `checkpw` re-hashes with the
salt embedded in the stored hash and compares, which is exactly the
algebra the source relies on.
-/

deriving instance DecidableEq for Except

/-- Kinds of Python exceptions raised by the embedded code.
`invalidType` / `invalidFormat` are the typed exceptions from
`api.tools.exceptions`; `nameError` and `attributeError` embed the built-in
Python exceptions that some code paths actually raise. -/
inductive PyExc where
  | invalidType
  | invalidFormat
  | nameError
  | attributeError
deriving DecidableEq, Repr

/-- A dynamically typed Python value handed to a property setter:
a `str`, or some non-string value (the setters only test `isinstance(_, str)`,
so all non-strings behave alike). -/
inductive PyVal where
  | pystr (s : String)
  | pyint (n : Int)
  | pynone
deriving DecidableEq, Repr

/-- Idealised bcrypt hash: the salt together with the digested plaintext.
`bcrypt.hashpw` embeds the salt in its output and `bcrypt.checkpw`
re-hashes the candidate with that embedded salt and compares digests. -/
structure BcryptHash where
  salt : Nat
  data : String
deriving DecidableEq, Repr

/-- Model of `bcrypt.hashpw(password, salt)`. -/
def hashpw (password : String) (salt : Nat) : BcryptHash :=
  ⟨salt, password⟩

/-- Model of `bcrypt.checkpw(password, stored)`: re-hash `password` with the
salt embedded in `stored` and compare with `stored`. -/
def checkpw (password : String) (stored : BcryptHash) : Bool :=
  hashpw password stored.salt == stored

/-! ### The email regex

`user.py` line 127 validates emails with
`re.match(r"^([a-zA-Z0-9_\-\.]+)@([a-zA-Z0-9_\-\.]+)\.([a-zA-Z]{2,5})$", email)`.
`emailChar` is the bracketed character class, `emailCore` the anchored match,
and `emailMatch` additionally reflects that in Python a final `$` also
matches just before one trailing newline. -/

/-- The character class `[a-zA-Z0-9_\-\.]` of the email regex. -/
def emailChar (c : Char) : Bool :=
  c.isAlpha || c.isDigit || c == '_' || c == '-' || c == '.'

/-- ASCII letters, for the `[a-zA-Z]{2,5}` top-level-domain group. -/
def asciiAlpha (c : Char) : Bool :=
  c.isAlpha

/-- Does `cs` match `[a-zA-Z0-9_\-\.]+\.[a-zA-Z]{2,5}` exactly (the part of
the email regex after the `@`)?  The domain group may itself contain dots,
so we try every position of the separating dot. -/
def domainTail (cs : List Char) : Bool :=
  (List.range cs.length).any fun i =>
    cs.get? i == some '.' && 0 < i &&
    (cs.take i).all emailChar &&
    (decide (2 ≤ cs.length - (i + 1)) && decide (cs.length - (i + 1) ≤ 5)) &&
    (cs.drop (i + 1)).all asciiAlpha

/-- Full anchored email match `^local@domain.tld$` on a list of characters.
The local part is the maximal `@`-free prefix (the class excludes `@`). -/
def emailCore (cs : List Char) : Bool :=
  let lp := cs.takeWhile (fun c => c != '@')
  let rest := cs.drop lp.length
  !lp.isEmpty && lp.all emailChar &&
  (match rest with
   | '@' :: tail => !tail.any (fun c => c == '@') && domainTail tail
   | _ => false)

/-- `re.match` of the email regex: Python `$` also matches just before a
single trailing newline. -/
def emailMatch (s : String) : Bool :=
  emailCore s.toList ||
  (match s.toList.getLast? with
   | some '\n' => emailCore s.toList.dropLast
   | _ => false)

/-! ### The bio pattern

`user.py` line 255 validates bios with
`re.match(r'[\w \.\+\(\)\[\]\{\}\?\*\&\^\%\$\#\/\'"~<>,:;!-_=@]{1,100}', bio)`.
Inside the bracket the sequence `!-_` is a character range (codepoints 33 to
95).  Because `re.match` only anchors at the start and the quantifier is
`{1,100}`, the pattern succeeds exactly when the first character belongs to
the class. -/

/-- ASCII approximation of Python `\w`: letters, digits and underscore. -/
def pyWordChar (c : Char) : Bool :=
  c.isAlpha || c.isDigit || c == '_'

/-- Membership in the bracketed class of the bio regex (note the `!-_`
range covering codepoints 33–95). -/
def bioChar (c : Char) : Bool :=
  pyWordChar c || c == ' ' ||
  (decide (33 ≤ c.toNat) && decide (c.toNat ≤ 95)) ||
  [
    '.', '+', '(', ')', '[', ']', '{', '}', '?', '*', '&', '^', '%', '$',
    '#', '/', '\'', '"', '~', '<', '>', ',', ':', ';', '=', '@'
  ].contains c

/-- `re.match` of the bio pattern: succeeds iff the string starts with a
class character (prefix matching, quantifier `{1,100}` needs one char). -/
def bioRegexMatch (s : String) : Bool :=
  match s.toList with
  | [] => false
  | c :: _ => bioChar c

/-! ### `datetime.strptime(date_of_birth, "%d-%m-%Y")`

Python compiles `%d` to `3[01]|[12]\d|0[1-9]|[1-9]`, `%m` to
`1[0-2]|0[1-9]|[1-9]` and `%Y` to exactly four digits, separated by literal
dashes with the whole string consumed; `datetime` then rejects impossible
dates (day beyond the month length, year 0). -/

/-- Split a character list at every occurrence of `sep` (the separators are
dropped); structural counterpart of Python `str.split`. -/
def splitOnChar (sep : Char) : List Char → List (List Char)
  | [] => [[]]
  | c :: cs =>
    if c == sep then [] :: splitOnChar sep cs
    else
      match splitOnChar sep cs with
      | [] => [[c]]
      | g :: gs => (c :: g) :: gs

/-- Rejoin the groups of `splitOnChar`, restoring the separators. -/
def joinChar (sep : Char) : List (List Char) → List Char
  | [] => []
  | [g] => g
  | g :: gs => g ++ sep :: joinChar sep gs

/-- Numeric value of an all-digit character list, `none` otherwise. -/
def digitsVal : List Char → Option Nat
  | [] => some 0
  | c :: cs =>
    if c.isDigit then
      (digitsVal cs).map (fun v => (c.toNat - 48) * 10 ^ cs.length + v)
    else none

/-- The `%d` group: one digit `1-9` or two digits with value `01`–`31`. -/
def validDaySeg (l : List Char) : Option Nat :=
  match digitsVal l with
  | none => none
  | some v =>
    if l.length == 1 && 1 ≤ v then some v
    else if l.length == 2 && 1 ≤ v && v ≤ 31 then some v
    else none

/-- The `%m` group: one digit `1-9` or two digits with value `01`–`12`. -/
def validMonSeg (l : List Char) : Option Nat :=
  match digitsVal l with
  | none => none
  | some v =>
    if l.length == 1 && 1 ≤ v then some v
    else if l.length == 2 && 1 ≤ v && v ≤ 12 then some v
    else none

/-- The `%Y` group: exactly four digits; `datetime` needs year ≥ 1. -/
def validYearSeg (l : List Char) : Option Nat :=
  match digitsVal l with
  | none => none
  | some v => if l.length == 4 && 1 ≤ v then some v else none

/-- Gregorian leap-year rule used by `datetime`. -/
def isLeapYear (y : Nat) : Bool :=
  y % 4 == 0 && (y % 100 != 0 || y % 400 == 0)

/-- Number of days of month `m` in year `y`. -/
def daysInMonth (m y : Nat) : Nat :=
  if m == 2 then (if isLeapYear y then 29 else 28)
  else if m == 4 || m == 6 || m == 9 || m == 11 then 30
  else 31

/-- Does `s` parse under `datetime.strptime(s, "%d-%m-%Y")`? -/
def validDate (s : String) : Bool :=
  match splitOnChar '-' s.toList with
  | [d, m, y] =>
    match validDaySeg d, validMonSeg m, validYearSeg y with
    | some dv, some mv, some yv => dv ≤ daysInMonth mv yv
    | _, _, _ => false
  | _ => false

/-! ### The `User` class (`src/backend/api/classes/user.py`)

Each property setter either raises (embedded as `Except.error`) leaving the
object unchanged, or returns the updated object. -/

/-- A value assigned to the `password` property.  The setter accepts `str`
and `bytes`; a bytes value that starts with `$2a$`/`$2b$`/`$2y$` and has
length 60 is a well-formed bcrypt digest and is embedded as the hash value
it denotes. -/
inductive PwInput where
  | pstr (s : String)
  | pbytesHash (h : BcryptHash)
  | pbytesOther (s : String)
  | pwother
deriving DecidableEq, Repr

/-- A value assigned to the `id` property: a `bson.ObjectId` instance
(embedded by its 24-hex-character string), a `str`, or anything else. -/
inductive IdInput where
  | oid (s : String)
  | strid (s : String)
  | idother
deriving DecidableEq, Repr

/-- A hexadecimal digit, either case. -/
def hexChar (c : Char) : Bool :=
  c.isDigit || ('a' ≤ c && c ≤ 'f') || ('A' ≤ c && c ≤ 'F')

/-- `ObjectId(s)` succeeds on a `str` iff it is 24 hexadecimal characters. -/
def validOid (s : String) : Bool :=
  s.length == 24 && s.toList.all hexChar

/-- The dynamic value assigned to a property that checks `isinstance`:
`str`, `bool`, or some other non-matching value. -/
inductive PyPropVal where
  | pvstr (s : String)
  | pvbool (b : Bool)
  | pvother
deriving DecidableEq, Repr

/-- The state of a `User` object: one field per Python instance attribute.
`_id` is `none` while the attribute has not been set. -/
structure UserR where
  _email : String
  _first_name : String
  _last_name : String
  _password : BcryptHash
  _bio : String
  _date_of_birth : String
  _profile_picture : String
  _activated : Bool
  _id : Option String
deriving DecidableEq, Repr

/-- The `email` setter (lines 120–134): `InvalidTypeException` on a
non-string, `InvalidFormatException` unless the email regex matches. -/
def setEmail (u : UserR) (v : PyPropVal) : Except PyExc UserR :=
  match v with
  | .pvstr s =>
    if emailMatch s then .ok { u with _email := s } else .error .invalidFormat
  | _ => .error .invalidType

/-- The `password` setter (lines 159–183): a string is always encoded and
hashed with a fresh salt; bytes shaped like a bcrypt digest (`$2a$`/`$2b$`/
`$2y$` prefix, length 60) are stored as they are; other bytes reach
`password.encode`, which does not exist on `bytes` (`AttributeError`). -/
def setPassword (u : UserR) (p : PwInput) (salt : Nat) : Except PyExc UserR :=
  match p with
  | .pstr s => .ok { u with _password := hashpw s salt }
  | .pbytesHash h => .ok { u with _password := h }
  | .pbytesOther _ => .error .attributeError
  | .pwother => .error .invalidType

/-- The `activated` setter (lines 189–196). -/
def setActivated (u : UserR) (v : PyPropVal) : Except PyExc UserR :=
  match v with
  | .pvbool b => .ok { u with _activated := b }
  | _ => .error .invalidType

/-- The `id` setter (lines 202–218): accepts an `ObjectId` or a string that
converts to one; it never checks whether `_id` is already set. -/
def setId (u : UserR) (v : IdInput) : Except PyExc UserR :=
  match v with
  | .oid s => .ok { u with _id := some s }
  | .strid s =>
    if validOid s then .ok { u with _id := some s } else .error .invalidFormat
  | .idother => .error .invalidType

/-- `validate_password` (lines 220–233): `bcrypt.checkpw` of the candidate
against the stored hash. -/
def validate_password (u : UserR) (password : String) : Bool :=
  checkpw password u._password

/-- The `bio` setter (lines 239–264): empty string stores the default text;
otherwise the length bound is checked, then the prefix-matching regex. -/
def setBio (u : UserR) (v : PyPropVal) : Except PyExc UserR :=
  match v with
  | .pvstr s =>
    if s == "" then .ok { u with _bio := "A short bio." }
    else if ¬ (s.length ≤ 100) then .error .invalidFormat
    else if bioRegexMatch s then .ok { u with _bio := s }
    else .error .invalidFormat
  | _ => .error .invalidType

/-- The `date_of_birth` setter (lines 270–291).  On a non-string the raise
statement builds its message from the undefined variable `name`
(line 275), so Python raises `NameError`, not `InvalidTypeException`.
An empty string stores a default date; otherwise `strptime` decides. -/
def setDateOfBirth (u : UserR) (v : PyPropVal) : Except PyExc UserR :=
  match v with
  | .pvstr s =>
    if s == "" then .ok { u with _date_of_birth := "14-03-1879" }
    else if validDate s then .ok { u with _date_of_birth := s }
    else .error .invalidFormat
  | _ => .error .nameError

/-- The `profile_picture` setter (lines 297–306): type check only. -/
def setProfilePicture (u : UserR) (v : PyPropVal) : Except PyExc UserR :=
  match v with
  | .pvstr s => .ok { u with _profile_picture := s }
  | _ => .error .invalidType

/-- The `first_name` setter (lines 140–143): no validation. -/
def setFirstName (u : UserR) (s : String) : UserR :=
  { u with _first_name := s }

/-- The `last_name` setter (lines 149–152): no validation. -/
def setLastName (u : UserR) (s : String) : UserR :=
  { u with _last_name := s }

/-- `User.__init__` (lines 45–84): runs every property setter in order;
`password or ""`, `bio or ""`, `date_of_birth or ""`,
`profile_picture or ""`, `activated or False`, and the id setter only when
`_id` is given. -/
def userInit (email : PyPropVal) (first last : String) (password : Option PwInput)
    (bio dob pp : Option String) (activated : Option Bool)
    (idv : Option IdInput) (salt : Nat) : Except PyExc UserR := do
  let u0 : UserR :=
    ⟨"", first, last, hashpw "" 0, "", "", "", false, none⟩
  let u1 ← setEmail u0 email
  let u2 ← setPassword u1 (password.getD (.pstr "")) salt
  let u3 ← setBio u2 (.pvstr (bio.getD ""))
  let u4 ← setDateOfBirth u3 (.pvstr (dob.getD ""))
  let u5 ← setProfilePicture u4 (.pvstr (pp.getD ""))
  let u6 ← setActivated u5 (.pvbool (activated.getD false))
  match idv with
  | none => pure u6
  | some i => setId u6 i

/-! ### The `Student` class (`src/backend/api/classes/student.py`) -/

/-- The state of a `Student` object: the inherited `User` state plus the
`courses` and `assignments` attributes. -/
structure StudentR where
  user : UserR
  courses : List String
  assignments : List String
deriving DecidableEq, Repr

/-- The value under the `"password"` key of a serialised user: the Python
dict can hold either a `str` or the raw bcrypt `bytes`. -/
inductive DictPw where
  | strV (s : String)
  | bytesV (h : BcryptHash)
deriving DecidableEq, Repr

/-- A document of the `students` collection, i.e. the dictionary produced
by `Student.to_dict` (lines 69–83).  The `_id` key is present only when the
object's id attribute was set. -/
structure StudentDict where
  email : String
  first_name : String
  last_name : String
  password : DictPw
  activated : Bool
  courses : List String
  assignments : List String
  _id : Option String
deriving DecidableEq, Repr

/-- `Student.__init__` (lines 22–64): calls `User.__init__` with only
email, names, password and `_id` (bio, date of birth, profile picture and
`activated` are not forwarded), then sets `courses or []` and
`assignments or []`. -/
def studentInit (email : PyPropVal) (first last : String)
    (password : Option PwInput) (idv : Option IdInput)
    (courses assignments : Option (List String)) (salt : Nat) :
    Except PyExc StudentR := do
  let u ← userInit email first last password none none none none idv salt
  pure ⟨u, courses.getD [], assignments.getD []⟩

/-- `Student.to_dict` (lines 69–83): the dictionary of `User.to_dict` with
the `"password"` entry overridden by the empty string. -/
def studentToDict (s : StudentR) : StudentDict :=
  { email := s.user._email
    first_name := s.user._first_name
    last_name := s.user._last_name
    password := .strV ""
    activated := s.user._activated
    courses := s.courses
    assignments := s.assignments
    _id := s.user._id }

/-- How a stored password value re-enters `User.__init__` when a document
is rehydrated: `password or ""` turns a falsy value into `""`, a stored
string stays a string and stored bcrypt bytes stay bytes. -/
def dictPwToInput : DictPw → PwInput
  | .strV s => .pstr s
  | .bytesV h => .pbytesHash h

/-- `Student.from_dict` (lines 165–186) on a present document:
`Student(**dictionary)`, with any exception caught and turned into `None`.
Note that the `activated` entry is accepted but dropped by
`Student.__init__`. -/
def studentFromDict (d : StudentDict) (salt : Nat) : Option StudentR :=
  match studentInit (.pvstr d.email) d.first_name d.last_name
      (some (dictPwToInput d.password)) (d._id.map IdInput.oid)
      (some d.courses) (some d.assignments) salt with
  | .ok s => some s
  | .error _ => none

/-- `Student.add` (lines 188–197): inserts `self.to_dict()` into the
`students` collection and assigns the returned `inserted_id` through the
id setter.  `raiseExc` stands for the store call raising, in which case the
broad `except` returns `False` and nothing changes; on success the store
gains the document (with the generated `_id` when the dict had none) and
the method returns `True`. -/
def studentAdd (s : StudentR) (freshId : String) (raiseExc : Bool)
    (store : List StudentDict) : Bool × StudentR × List StudentDict :=
  if raiseExc then (false, s, store)
  else
    let doc := studentToDict s
    let inserted := match doc._id with
      | some i => i
      | none => freshId
    match setId s.user (.oid inserted) with
    | .ok u2 => (true, { s with user := u2 }, store ++ [{ doc with _id := some inserted }])
    | .error _ => (false, s, store)

/-! ### The login endpoint (`src/backend/api/modules/auth/routes.py`)

The POST branch of `login` (lines 77–123) for a request that carries all
three JSON fields.  The store is embedded as one list of hydrated user
records per role collection; `get_by_email` is a `find_one` on the `email`
key.  The success response also carries constant fields (a flash message
and an empty `"dob"`), which are not modelled. -/

/-- A hydrated user record as the role classes return it from
`get_by_email`: enough of the document to drive the login logic. -/
structure StoredUser where
  email : String
  first_name : String
  last_name : String
  password : BcryptHash
deriving DecidableEq, Repr

/-- The four role collections probed by `login`. -/
structure AuthDB where
  students : List StoredUser
  teachers : List StoredUser
  admins : List StoredUser
  parents : List StoredUser
deriving DecidableEq, Repr

/-- `find_one({"email": email})`: the first document whose `email` field
equals the query string exactly (the store compares case-sensitively). -/
def findByEmail (coll : List StoredUser) (email : String) : Option StoredUser :=
  coll.find? (fun u => u.email == email)

/-- ASCII uppercase letter (codepoints 65–90). -/
def asciiUpper (c : Char) : Bool :=
  decide (65 ≤ c.toNat) && decide (c.toNat ≤ 90)

/-- Python `str.lower` restricted to ASCII letters (emails accepted by the
validator only contain ASCII characters). -/
def charLower (c : Char) : Char :=
  if asciiUpper c then Char.ofNat (c.toNat + 32) else c

/-- `email.lower()` as applied on line 79 of the login route. -/
def strLower (s : String) : String :=
  ⟨s.toList.map charLower⟩

/-- The view response of the login endpoint: either a success response with
the user info, or an `error(...)` response with its message string;
paired with the HTTP status code by `login`. -/
inductive LoginResponse where
  | success (userName : String) (userType : String)
  | failure (msg : String)
deriving DecidableEq, Repr

/-- The probe loop of `login` (lines 83–120): try each scope in order; on
the first scope whose `get_by_email` is not `None`, validate the password
and answer immediately; if every scope misses, report that no user with
this email exists. -/
def tryScopes (scopes : List (List StoredUser × String)) (email password : String) :
    LoginResponse × Nat :=
  match scopes with
  | [] => (.failure "The user with this email does not exist.", 400)
  | (coll, ty) :: rest =>
    match findByEmail coll email with
    | some u =>
      if checkpw password u.password then
        (.success (u.first_name ++ " " ++ u.last_name) ty, 200)
      else
        (.failure "Invalid password,", 400)
    | none => tryScopes rest email password

/-- The POST branch of `login` for a request with fields
`email`, `password`, `remember_me`: lowercase the email, then probe
`[Student, Teacher, Admin, Parent]` in that order.  `remember_me` only
feeds `login_user` and does not influence the response. -/
def login (db : AuthDB) (email password : String) (rememberMe : Bool) :
    LoginResponse × Nat :=
  let _ := rememberMe
  let e := strLower email
  tryScopes
    [(db.students, "Student"), (db.teachers, "Teacher"),
     (db.admins, "Admin"), (db.parents, "Parent")]
    e password

/-! ### The legacy `User` class (`src/app/modules/db/classes/user.py`)

`set_password` keeps a string verbatim when it matches
`re.match(r"(pbkdf2:sha256:)([^\$.]+)(\$)([^\$.]+)(\$)([^\$.]+)", password)`
and otherwise stores `werkzeug.generate_password_hash(password)`;
`verify_password` delegates to `werkzeug.check_password_hash`. -/

/-- Nonempty and free of `.` — the shape of the first two `[^\$.]+`
groups, which cannot span a `$`. -/
def noDotNonempty (l : List Char) : Bool :=
  !l.isEmpty && l.all (fun c => c != '.')

/-- `re.match` of the pbkdf2 pattern (prefix match, trailing text free):
the literal `pbkdf2:sha256:`, two `$`-separated groups without `.` or `$`,
a `$`, then at least one character that is neither `$` nor `.`. -/
def matchesPbkdf2 (s : String) : Bool :=
  let cs := s.toList
  if cs.take 14 == "pbkdf2:sha256:".toList then
    match splitOnChar '$' (cs.drop 14) with
    | p0 :: p1 :: p2 :: _ =>
      noDotNonempty p0 && noDotNonempty p1 &&
      (match p2 with
       | [] => false
       | c :: _ => c != '.')
    | _ => false
  else false

/-- Idealised pbkdf2 digest used by the werkzeug model: it records the
iteration count, the salt and the password (the real digest is a hex string
determined by exactly these inputs). -/
def wzPbkdf2 (password salt iterations : List Char) : List Char :=
  iterations ++ '|' :: salt ++ '|' :: password

/-- Model of `werkzeug.generate_password_hash` with the default method:
`pbkdf2:sha256:260000$salt$digest`. -/
def generate_password_hash (password salt : String) : String :=
  ⟨"pbkdf2:sha256:260000".toList ++ '$' :: salt.toList ++
    '$' :: wzPbkdf2 password.toList salt.toList "260000".toList⟩

/-- Model of `werkzeug.check_password_hash`: split the stored value into
`method$salt$digest`, re-derive and compare.  `none` embeds the exception
raised when the method's iteration count is not an integer (or the method
is unknown); fewer than two `$` gives `False`. -/
def check_password_hash (pwhash password : String) : Option Bool :=
  match splitOnChar '$' pwhash.toList with
  | m :: sa :: h :: rest =>
    let hv := joinChar '$' (h :: rest)
    if m.take 14 == "pbkdf2:sha256:".toList then
      let iter := m.drop 14
      if !iter.isEmpty && iter.all Char.isDigit then
        some (hv == wzPbkdf2 password.toList sa iter)
      else none
    else none
  | _ => some false

/-- The state of a legacy `User` object. -/
structure LUserR where
  email : String
  first_name : String
  last_name : String
  ID : String
  password_hash : String
deriving DecidableEq, Repr

/-- Legacy `set_password` (lines 25–29): a string matching the pbkdf2
pattern is stored as it is; anything else is hashed. -/
def lSetPassword (u : LUserR) (password salt : String) : LUserR :=
  if matchesPbkdf2 password then
    { u with password_hash := password }
  else
    { u with password_hash := generate_password_hash password salt }

/-- Legacy `verify_password` (lines 31–32). -/
def lVerifyPassword (u : LUserR) (password : String) : Option Bool :=
  check_password_hash u.password_hash password

/-- Legacy `new_id` (lines 21–23): unconditionally replaces `ID` with a
fresh store-generated identifier. -/
def legacyNewId (u : LUserR) (fresh : String) : LUserR :=
  { u with ID := fresh }

/-! ### The broad try/except wrappers of the data-access methods

Each wrapper takes the outcome of the underlying store call as a
parameter: `.error ()` embeds the call raising, `.ok v` the call returning
`v`.  The source catches every exception, logs it, and returns
`None`/`False`. -/

/-- `Student.get_by_id` (lines 85–103): `from_dict(find_one(...))` with a
catch-all returning `None`; `from_dict` maps a missing document to `None`. -/
def sGetById (outcome : Except Unit (Option StudentDict)) (salt : Nat) :
    Option StudentR :=
  match outcome with
  | .error _ => none
  | .ok none => none
  | .ok (some d) => studentFromDict d salt

/-- `Student.get_by_email` (lines 105–120): same shape as `get_by_id`. -/
def sGetByEmail (outcome : Except Unit (Option StudentDict)) (salt : Nat) :
    Option StudentR :=
  match outcome with
  | .error _ => none
  | .ok none => none
  | .ok (some d) => studentFromDict d salt

/-- `Student.get_by_keyword` (lines 122–163): on success it builds the list
`[Student.from_dict(s) for s in matches]` (entries may be `None`) and
returns it — an empty aggregation yields the empty list, not `None`;
only a raised exception yields `None`. -/
def sGetByKeyword (outcome : Except Unit (List StudentDict)) (salt : Nat) :
    Option (List (Option StudentR)) :=
  match outcome with
  | .error _ => none
  | .ok docs => some (docs.map (fun d => studentFromDict d salt))

/-- `Student.remove` (lines 199–213): `True` unless the delete raises. -/
def sRemove (outcome : Except Unit Unit) : Bool :=
  match outcome with
  | .error _ => false
  | .ok _ => true

/-- `Student.activate` (lines 316–331): update the store, then set the
attribute and return `True`; any exception gives `False`. -/
def sActivate (s : StudentR) (outcome : Except Unit Unit) : Bool × StudentR :=
  match outcome with
  | .error _ => (false, s)
  | .ok _ => (true, { s with user := { s.user with _activated := true } })

/-- `Student.set_password` (lines 333–352): run the password setter, then
the store update; any exception from either gives `False` (note the setter
runs first, so the attribute may change even on a failed update). -/
def sSetPassword (s : StudentR) (p : PwInput) (salt : Nat)
    (outcome : Except Unit Unit) : Bool × StudentR :=
  match setPassword s.user p salt with
  | .error _ => (false, s)
  | .ok u2 =>
    match outcome with
    | .error _ => (false, { s with user := u2 })
    | .ok _ => (true, { s with user := u2 })

/-- A document of the `parents` collection (`src/api/classes/parent.py`);
only the fields the wrappers inspect are named. -/
structure ParentDoc where
  email : String
  first_name : String
  last_name : String
  children : List String
  _id : Option String
deriving DecidableEq, Repr

/-- A hydrated `Parent` object.  The `User` base class of the `api.classes`
package is not among the given sources, so hydration of a found document is
a parameter of the wrappers below. -/
structure ParentR where
  email : String
  first_name : String
  last_name : String
  children : List String
deriving DecidableEq, Repr

/-- `Parent.get_by_id` (lines 89–105): catch-all returning `None`;
`Parent.from_dict` maps a missing document to `None` and hydrates a found
one (`hydrate` embeds `Parent(**dictionary)`, whose success depends on the
`User` base class). -/
def pGetById (outcome : Except Unit (Option ParentDoc))
    (hydrate : ParentDoc → Option ParentR) : Option ParentR :=
  match outcome with
  | .error _ => none
  | .ok none => none
  | .ok (some d) => hydrate d

/-- `Parent.get_by_email` (lines 107–123): same shape as `get_by_id`. -/
def pGetByEmail (outcome : Except Unit (Option ParentDoc))
    (hydrate : ParentDoc → Option ParentR) : Option ParentR :=
  match outcome with
  | .error _ => none
  | .ok none => none
  | .ok (some d) => hydrate d

/-! ### `Student.add_submission` (lines 240–277)

The two collections touched by `add_submission`, embedded as document
lists.  `find_one_and_update` updates the first matching document and is a
no-op when nothing matches; the positional `$` selects the first array
element satisfying the query condition on the array field. -/

/-- The dictionary `{**submission.to_dict()}` pushed into the assignment's
`submissions` array.  `Submission.to_dict` itself is not among the given
sources; `add_submission` treats the dictionary opaquely, so it is embedded
as the submission's fields. -/
structure SubDict where
  assignment_id : String
  id : String
  payload : String
deriving DecidableEq, Repr

/-- A `Submission` object: the two ids `add_submission` reads, plus the
rest of its data, opaque here. -/
structure Submission where
  assignment_id : String
  id : String
  payload : String
deriving DecidableEq, Repr

/-- The serialisation used on line 254. -/
def subToDict (s : Submission) : SubDict :=
  ⟨s.assignment_id, s.id, s.payload⟩

/-- An element of a course's `assignments` array; `rest` stands for every
field other than `_id` and `submissions`. -/
structure AssignmentDoc where
  id : String
  submissions : List SubDict
  rest : String
deriving DecidableEq, Repr

/-- A document of the `courses` collection; `rest` stands for every field
other than `_id` and `assignments`. -/
structure CourseDoc where
  id : String
  assignments : List AssignmentDoc
  rest : String
deriving DecidableEq, Repr

/-- The two collections `add_submission` touches. -/
structure SchoolDB where
  courses : List CourseDoc
  students : List StudentDict
deriving DecidableEq, Repr

/-- Replace the first element satisfying `p` by its image under `f`;
all other elements are untouched.  This is `find_one_and_update`. -/
def updateFirst (p : α → Bool) (f : α → α) : List α → List α
  | [] => []
  | x :: xs => if p x then f x :: xs else x :: updateFirst p f xs

/-- The query of the first update: `_id` equals the course id and some
array element of `assignments` has the submission's assignment id. -/
def courseMatch (cid aid : String) (c : CourseDoc) : Bool :=
  c.id == cid && c.assignments.any (fun a => a.id == aid)

/-- The `$push` with the positional `$`: append the dictionary to the
`submissions` of the first assignment with the queried id. -/
def pushSubmission (aid : String) (d : SubDict) (c : CourseDoc) : CourseDoc :=
  { c with
    assignments :=
      updateFirst (fun a => a.id == aid)
        (fun a => { a with submissions := a.submissions ++ [d] })
        c.assignments }

/-- `Student.add_submission`: set a fresh submission id, push the
submission dictionary into the matching course document, then push the
string `course_id + "_" + assignment_id + "_" + submission_id` onto this
student's own document — two separate single-document updates. -/
def add_submission (db : SchoolDB) (selfId course_id : String)
    (submission : Submission) (newSubId : String) : SchoolDB :=
  let submission := { submission with id := newSubId }
  let dictionary := subToDict submission
  let courses2 :=
    updateFirst (courseMatch course_id submission.assignment_id)
      (pushSubmission submission.assignment_id dictionary) db.courses
  let uniq := course_id ++ "_" ++ submission.assignment_id ++ "_" ++ submission.id
  let students2 :=
    updateFirst (fun d => d._id == some selfId)
      (fun d => { d with assignments := d.assignments ++ [uniq] }) db.students
  ⟨courses2, students2⟩

/-! ## Helper lemmas -/

/-- Lowercasing never produces an ASCII uppercase letter. -/
theorem charLower_not_upper (c : Char) : asciiUpper (charLower c) = false := by
  unfold charLower
  cases hc : asciiUpper c with
  | false => simp [hc]
  | true =>
    have h1 : 65 ≤ c.toNat ∧ c.toNat ≤ 90 := by
      simpa [asciiUpper] using hc
    have hv : (c.toNat + 32).isValidChar := by left; omega
    have hval : (Char.ofNat (c.toNat + 32)).toNat = c.toNat + 32 := by
      rw [Char.ofNat, dif_pos hv]; rfl
    simp only [hc, if_true]
    simp [asciiUpper, hval]
    omega

/-! ## C1 — role-probing order and outcomes of the login endpoint -/

/-- Claim C1, counterexample to the error message as stated: with a student
on file whose password does not validate, the login endpoint answers with
the literal message `"Invalid password,"` (trailing comma, line 115), not
`"Invalid password"`. -/
theorem C1_counterexample :
    login ⟨[⟨"s@x.co", "Ann", "Lee", hashpw "pw" 7⟩], [], [], []⟩ "s@x.co" "bad" false
      = (.failure "Invalid password,", 400) ∧
    (login ⟨[⟨"s@x.co", "Ann", "Lee", hashpw "pw" 7⟩], [], [], []⟩ "s@x.co" "bad" false).1
      ≠ .failure "Invalid password" := by
  constructor
  · decide
  · decide

/-- Claim C1 (amended: the invalid-password message carries a trailing
comma): login probes Student, Teacher, Admin, Parent in order; the first
collection returning a user decides the outcome — success on password
validation, the `"Invalid password,"` error otherwise, independently of the
later collections — and the user-does-not-exist error appears exactly when
all four lookups return `None`. -/
theorem C1_login_behaviour :
    (∀ (db : AuthDB) (e pw : String) (r : Bool) (u : StoredUser),
      findByEmail db.students (strLower e) = some u →
      login db e pw r =
        if checkpw pw u.password then
          (.success (u.first_name ++ " " ++ u.last_name) "Student", 200)
        else (.failure "Invalid password,", 400)) ∧
    (∀ (db : AuthDB) (e pw : String) (r : Bool) (u : StoredUser),
      findByEmail db.students (strLower e) = none →
      findByEmail db.teachers (strLower e) = some u →
      login db e pw r =
        if checkpw pw u.password then
          (.success (u.first_name ++ " " ++ u.last_name) "Teacher", 200)
        else (.failure "Invalid password,", 400)) ∧
    (∀ (db : AuthDB) (e pw : String) (r : Bool) (u : StoredUser),
      findByEmail db.students (strLower e) = none →
      findByEmail db.teachers (strLower e) = none →
      findByEmail db.admins (strLower e) = some u →
      login db e pw r =
        if checkpw pw u.password then
          (.success (u.first_name ++ " " ++ u.last_name) "Admin", 200)
        else (.failure "Invalid password,", 400)) ∧
    (∀ (db : AuthDB) (e pw : String) (r : Bool) (u : StoredUser),
      findByEmail db.students (strLower e) = none →
      findByEmail db.teachers (strLower e) = none →
      findByEmail db.admins (strLower e) = none →
      findByEmail db.parents (strLower e) = some u →
      login db e pw r =
        if checkpw pw u.password then
          (.success (u.first_name ++ " " ++ u.last_name) "Parent", 200)
        else (.failure "Invalid password,", 400)) ∧
    (∀ (db : AuthDB) (e pw : String) (r : Bool),
      login db e pw r = (.failure "The user with this email does not exist.", 400) ↔
        (findByEmail db.students (strLower e) = none ∧
         findByEmail db.teachers (strLower e) = none ∧
         findByEmail db.admins (strLower e) = none ∧
         findByEmail db.parents (strLower e) = none)) := by
  refine ⟨?_, ?_, ?_, ?_, ?_⟩
  · intro db e pw r u h₁
    simp [login, tryScopes, h₁]
  · intro db e pw r u h₁ h₂
    simp [login, tryScopes, h₁, h₂]
  · intro db e pw r u h₁ h₂ h₃
    simp [login, tryScopes, h₁, h₂, h₃]
  · intro db e pw r u h₁ h₂ h₃ h₄
    simp [login, tryScopes, h₁, h₂, h₃, h₄]
  · intro db e pw r
    constructor
    · intro h
      cases h₁ : findByEmail db.students (strLower e) with
      | some u =>
        rw [show login db e pw r = _ from rfl] at h
        simp [login, tryScopes, h₁] at h
        split at h <;> simp_all
      | none =>
      cases h₂ : findByEmail db.teachers (strLower e) with
      | some u =>
        simp [login, tryScopes, h₁, h₂] at h
        split at h <;> simp_all
      | none =>
      cases h₃ : findByEmail db.admins (strLower e) with
      | some u =>
        simp [login, tryScopes, h₁, h₂, h₃] at h
        split at h <;> simp_all
      | none =>
      cases h₄ : findByEmail db.parents (strLower e) with
      | some u =>
        simp [login, tryScopes, h₁, h₂, h₃, h₄] at h
        split at h <;> simp_all
      | none => exact ⟨rfl, rfl, rfl, rfl⟩
    · intro ⟨h₁, h₂, h₃, h₄⟩
      simp [login, tryScopes, h₁, h₂, h₃, h₄]

/-- Witness for C1: a concrete database and request exercising the first
conjunct with its hypothesis discharged. -/
theorem C1_login_witness :
    login ⟨[⟨"ann@x.co", "Ann", "Lee", hashpw "pw" 7⟩], [], [], []⟩ "Ann@X.co" "pw" true
      = (.success "Ann Lee" "Student", 200) := by
  have h := C1_login_behaviour.1
    ⟨[⟨"ann@x.co", "Ann", "Lee", hashpw "pw" 7⟩], [], [], []⟩ "Ann@X.co" "pw" true
    ⟨"ann@x.co", "Ann", "Lee", hashpw "pw" 7⟩ (by decide)
  exact h.trans (by decide)

/-! ## C10 — lowercasing of the login email -/

/-- Claim C10: the submitted email is lowercased before any probe, so
requests whose emails agree up to ASCII case behave identically, and a
stored record whose email contains an uppercase letter is never the result
of any login lookup. -/
theorem C10_lowercase_lookup :
    (∀ (db : AuthDB) (e₁ e₂ pw : String) (r₁ r₂ : Bool),
      strLower e₁ = strLower e₂ → login db e₁ pw r₁ = login db e₂ pw r₂) ∧
    (∀ (coll : List StoredUser) (u : StoredUser) (e : String),
      u.email.toList.any asciiUpper = true →
      findByEmail coll (strLower e) ≠ some u) := by
  constructor
  · intro db e₁ e₂ pw r₁ r₂ h
    simp only [login, h]
  · intro coll u e hup hfind
    have hmem := List.find?_some hfind
    have heq : u.email = strLower e := by simpa using hmem
    rw [heq] at hup
    have : (strLower e).toList = e.toList.map charLower := rfl
    rw [this, List.any_map] at hup
    simp only [List.any_eq_true, Function.comp] at hup
    obtain ⟨c, _, hc⟩ := hup
    rw [charLower_not_upper c] at hc
    exact Bool.false_ne_true hc

/-- Witness for C10: two concretely case-differing requests yield the same
response, exercising the first conjunct with its hypothesis discharged. -/
theorem C10_witness :
    login ⟨[⟨"ann@x.co", "Ann", "Lee", hashpw "pw" 7⟩], [], [], []⟩ "Ann@X.co" "pw" false
      = login ⟨[⟨"ann@x.co", "Ann", "Lee", hashpw "pw" 7⟩], [], [], []⟩ "ann@x.co" "pw" false :=
  C10_lowercase_lookup.1 ⟨[⟨"ann@x.co", "Ann", "Lee", hashpw "pw" 7⟩], [], [], []⟩
    "Ann@X.co" "ann@x.co" "pw" false false (by decide)

/-- A successful email assignment only rewrites `_email`. -/
theorem setEmail_shape {u u' : UserR} {v : PyPropVal}
    (h : setEmail u v = .ok u') : ∃ s, u' = { u with _email := s } := by
  cases v with
  | pvstr s =>
    simp only [setEmail] at h
    split at h
    · injection h with h; exact ⟨s, h.symm⟩
    · simp at h
  | pvbool b => simp [setEmail] at h
  | pvother => simp [setEmail] at h

/-- A successful password assignment only rewrites `_password`. -/
theorem setPassword_shape {u u' : UserR} {p : PwInput} {salt : Nat}
    (h : setPassword u p salt = .ok u') : ∃ hh, u' = { u with _password := hh } := by
  cases p with
  | pstr s =>
    simp only [setPassword] at h
    injection h with h
    exact ⟨hashpw s salt, h.symm⟩
  | pbytesHash hh =>
    simp only [setPassword] at h
    injection h with h
    exact ⟨hh, h.symm⟩
  | pbytesOther s => simp [setPassword] at h
  | pwother => simp [setPassword] at h

/-- A successful bio assignment only rewrites `_bio`. -/
theorem setBio_shape {u u' : UserR} {v : PyPropVal}
    (h : setBio u v = .ok u') : ∃ b, u' = { u with _bio := b } := by
  cases v with
  | pvstr s =>
    simp only [setBio] at h
    split at h
    · injection h with h; exact ⟨"A short bio.", h.symm⟩
    · split at h
      · simp at h
      · split at h
        · injection h with h; exact ⟨s, h.symm⟩
        · simp at h
  | pvbool b => simp [setBio] at h
  | pvother => simp [setBio] at h

/-- A successful date-of-birth assignment only rewrites `_date_of_birth`. -/
theorem setDateOfBirth_shape {u u' : UserR} {v : PyPropVal}
    (h : setDateOfBirth u v = .ok u') : ∃ d, u' = { u with _date_of_birth := d } := by
  cases v with
  | pvstr s =>
    simp only [setDateOfBirth] at h
    split at h
    · injection h with h; exact ⟨"14-03-1879", h.symm⟩
    · split at h
      · injection h with h; exact ⟨s, h.symm⟩
      · simp at h
  | pvbool b => simp [setDateOfBirth] at h
  | pvother => simp [setDateOfBirth] at h

/-- A successful profile-picture assignment only rewrites `_profile_picture`. -/
theorem setProfilePicture_shape {u u' : UserR} {v : PyPropVal}
    (h : setProfilePicture u v = .ok u') : ∃ s, u' = { u with _profile_picture := s } := by
  cases v with
  | pvstr s =>
    simp only [setProfilePicture] at h
    injection h with h
    exact ⟨s, h.symm⟩
  | pvbool b => simp [setProfilePicture] at h
  | pvother => simp [setProfilePicture] at h

/-- A successful activation-flag assignment only rewrites `_activated`. -/
theorem setActivated_shape {u u' : UserR} {v : PyPropVal}
    (h : setActivated u v = .ok u') : ∃ b, u' = { u with _activated := b } := by
  cases v with
  | pvbool b =>
    simp only [setActivated] at h
    injection h with h
    exact ⟨b, h.symm⟩
  | pvstr s => simp [setActivated] at h
  | pvother => simp [setActivated] at h

/-- A successful id assignment only rewrites `_id`, to a present value. -/
theorem setId_shape {u u' : UserR} {v : IdInput}
    (h : setId u v = .ok u') : ∃ i, u' = { u with _id := some i } := by
  cases v with
  | oid s =>
    simp only [setId] at h
    injection h with h
    exact ⟨s, h.symm⟩
  | strid s =>
    simp only [setId] at h
    split at h
    · injection h with h; exact ⟨s, h.symm⟩
    · simp at h
  | idother => simp [setId] at h

/-- The password stored by a successful `User.__init__` with a string
password is the bcrypt hash of that string. -/
theorem userInit_ok_password {email : PyPropVal} {first last p : String}
    {bio dob pp : Option String} {act : Option Bool} {idv : Option IdInput}
    {salt : Nat} {u : UserR}
    (h : userInit email first last (some (.pstr p)) bio dob pp act idv salt = .ok u) :
    u._password = hashpw p salt := by
  unfold userInit at h
  simp only [Bind.bind, Except.bind, Option.getD, setPassword, Pure.pure, Except.pure] at h
  split at h
  · exact absurd h (by simp)
  next u1 hE =>
  split at h
  · exact absurd h (by simp)
  next u3 hB =>
  obtain ⟨b, rfl⟩ := setBio_shape hB
  split at h
  · exact absurd h (by simp)
  next u4 hD =>
  obtain ⟨d, rfl⟩ := setDateOfBirth_shape hD
  split at h
  · exact absurd h (by simp)
  next u5 hP =>
  obtain ⟨q, rfl⟩ := setProfilePicture_shape hP
  split at h
  · exact absurd h (by simp)
  next u6 hA =>
  obtain ⟨a, rfl⟩ := setActivated_shape hA
  cases idv with
  | none =>
    injection h with h
    rw [← h]
  | some i =>
    obtain ⟨j, rfl⟩ := setId_shape h
    rfl

/-! ## C2 — how assigned passwords are stored -/

/-- Claim C2, counterexample: in the legacy class, a plaintext that matches
the pbkdf2 pattern is stored verbatim by `set_password` — the stored value
is the plaintext itself, not the hash the library would produce. -/
theorem C2_counterexample :
    (lSetPassword ⟨"e@x.co", "A", "B", "id0", "old"⟩ "pbkdf2:sha256:1$b$c" "salt0").password_hash
      = "pbkdf2:sha256:1$b$c" ∧
    (lSetPassword ⟨"e@x.co", "A", "B", "id0", "old"⟩ "pbkdf2:sha256:1$b$c" "salt0").password_hash
      ≠ generate_password_hash "pbkdf2:sha256:1$b$c" "salt0" := by
  constructor
  · decide
  · decide

/-- Claim C2 (amended): a string assigned through the backend password
setter, or at backend construction, is always stored as its bcrypt hash;
in the legacy class, `set_password` hashes exactly the strings that do not
match the pbkdf2 pattern and stores a matching string verbatim. -/
theorem C2_password_storage :
    (∀ (u : UserR) (p : String) (salt : Nat),
      setPassword u (.pstr p) salt = .ok { u with _password := hashpw p salt }) ∧
    (∀ (email : PyPropVal) (first last p : String)
       (bio dob pp : Option String) (act : Option Bool) (idv : Option IdInput)
       (salt : Nat) (u : UserR),
      userInit email first last (some (.pstr p)) bio dob pp act idv salt = .ok u →
      u._password = hashpw p salt) ∧
    (∀ (u : LUserR) (p salt : String), matchesPbkdf2 p = false →
      (lSetPassword u p salt).password_hash = generate_password_hash p salt) ∧
    (∀ (u : LUserR) (p salt : String), matchesPbkdf2 p = true →
      (lSetPassword u p salt).password_hash = p) := by
  refine ⟨fun u p salt => rfl, ?_, ?_, ?_⟩
  · intro email first last p bio dob pp act idv salt u h
    exact userInit_ok_password h
  · intro u p salt h
    simp [lSetPassword, h]
  · intro u p salt h
    simp [lSetPassword, h]

/-- Witness for C2: the three conditional conjuncts exercised at concrete
inputs with their hypotheses discharged. -/
theorem C2_witness :
    UserR._password
        ⟨"a@b.co", "A", "B", hashpw "pw" 5, "A short bio.", "14-03-1879", "", false, none⟩
      = hashpw "pw" 5 ∧
    (lSetPassword ⟨"e@x.co", "A", "B", "i", "o"⟩ "pw" "s0").password_hash
      = generate_password_hash "pw" "s0" ∧
    (lSetPassword ⟨"e@x.co", "A", "B", "i", "o"⟩ "pbkdf2:sha256:1$b$c" "s0").password_hash
      = "pbkdf2:sha256:1$b$c" :=
  ⟨C2_password_storage.2.1 (.pvstr "a@b.co") "A" "B" "pw" none none none none none 5
      ⟨"a@b.co", "A", "B", hashpw "pw" 5, "A short bio.", "14-03-1879", "", false, none⟩
      (by decide),
   C2_password_storage.2.2.1 ⟨"e@x.co", "A", "B", "i", "o"⟩ "pw" "s0" (by decide),
   C2_password_storage.2.2.2 ⟨"e@x.co", "A", "B", "i", "o"⟩ "pbkdf2:sha256:1$b$c" "s0"
      (by decide)⟩

/-! ## C3 — typed exceptions from the validating setters -/

/-- Claim C3, the failing input: assigning a non-string to `date_of_birth`
does not raise `InvalidTypeException` — building the exception message
evaluates the undefined variable `name` (user.py line 275), so Python
raises `NameError` instead. -/
theorem C3_dob_type_bug :
    setDateOfBirth ⟨"e@x.co", "A", "B", hashpw "" 0, "b", "01-01-2000", "", false, none⟩ .pvother
      = .error .nameError ∧
    setDateOfBirth ⟨"e@x.co", "A", "B", hashpw "" 0, "b", "01-01-2000", "", false, none⟩ .pvother
      ≠ .error .invalidType := by
  constructor
  · rfl
  · decide

/-! ## C8 — empty-string defaults of bio and date_of_birth -/

/-- Claim C8: assigning the empty string to `bio` stores the default text
and assigning it to `date_of_birth` stores Einstein's birthdate, with no
exception, although the empty string matches neither validation pattern. -/
theorem C8_empty_defaults :
    (∀ u : UserR, setBio u (.pvstr "") = .ok { u with _bio := "A short bio." }) ∧
    (∀ u : UserR, setDateOfBirth u (.pvstr "") = .ok { u with _date_of_birth := "14-03-1879" }) ∧
    bioRegexMatch "" = false ∧ validDate "" = false := by
  refine ⟨fun u => rfl, fun u => rfl, by decide, by decide⟩

/-! ## C5 — stability of the identifier -/

/-- Claim C5, counterexample: the id setter never checks whether `_id` is
already set; assigning a second valid identifier succeeds and replaces the
first one. -/
theorem C5_counterexample :
    setId ⟨"e@x.co", "A", "B", hashpw "" 0, "b", "d", "", false,
        some "aaaaaaaaaaaaaaaaaaaaaaaa"⟩ (.strid "bbbbbbbbbbbbbbbbbbbbbbbb")
      = .ok ⟨"e@x.co", "A", "B", hashpw "" 0, "b", "d", "", false,
        some "bbbbbbbbbbbbbbbbbbbbbbbb"⟩ ∧
    (some "bbbbbbbbbbbbbbbbbbbbbbbb" : Option String) ≠ some "aaaaaaaaaaaaaaaaaaaaaaaa" := by
  constructor
  · decide
  · decide

/-- Claim C5 (amended): the identifier is left unchanged by every operation
except an assignment through the id setter itself (which validates format
only and overwrites) and the legacy `new_id` (which regenerates it): all
other setters, serialisation, and `Student.add` preserve an already-set
identifier. -/
theorem C5_id_stability :
    (∀ (u : UserR) (v : PyPropVal) (u' : UserR),
      setEmail u v = .ok u' → u'._id = u._id) ∧
    (∀ (u : UserR) (p : PwInput) (salt : Nat) (u' : UserR),
      setPassword u p salt = .ok u' → u'._id = u._id) ∧
    (∀ (u : UserR) (v : PyPropVal) (u' : UserR),
      setBio u v = .ok u' → u'._id = u._id) ∧
    (∀ (u : UserR) (v : PyPropVal) (u' : UserR),
      setDateOfBirth u v = .ok u' → u'._id = u._id) ∧
    (∀ (u : UserR) (v : PyPropVal) (u' : UserR),
      setActivated u v = .ok u' → u'._id = u._id) ∧
    (∀ (u : UserR) (v : PyPropVal) (u' : UserR),
      setProfilePicture u v = .ok u' → u'._id = u._id) ∧
    (∀ (u : UserR) (s : String), (setFirstName u s)._id = u._id) ∧
    (∀ (u : UserR) (s : String), (setLastName u s)._id = u._id) ∧
    (∀ s : StudentR, (studentToDict s)._id = s.user._id) ∧
    (∀ (s : StudentR) (i fresh : String) (exc : Bool) (store : List StudentDict),
      s.user._id = some i →
      ((studentAdd s fresh exc store).2.1).user._id = some i) ∧
    (∀ (u : LUserR) (fresh : String), (legacyNewId u fresh).ID = fresh) := by
  refine ⟨?_, ?_, ?_, ?_, ?_, ?_, fun u s => rfl, fun u s => rfl, fun s => rfl, ?_, fun u f => rfl⟩
  · intro u v u' h; obtain ⟨s, rfl⟩ := setEmail_shape h; rfl
  · intro u p salt u' h; obtain ⟨hh, rfl⟩ := setPassword_shape h; rfl
  · intro u v u' h; obtain ⟨b, rfl⟩ := setBio_shape h; rfl
  · intro u v u' h; obtain ⟨d, rfl⟩ := setDateOfBirth_shape h; rfl
  · intro u v u' h; obtain ⟨b, rfl⟩ := setActivated_shape h; rfl
  · intro u v u' h; obtain ⟨q, rfl⟩ := setProfilePicture_shape h; rfl
  · intro s i fresh exc store h
    cases exc with
    | true => simpa [studentAdd] using h
    | false => simp [studentAdd, studentToDict, h, setId]

/-- Witness for C5: the email-setter and `Student.add` conjuncts exercised
at concrete inputs with their hypotheses discharged. -/
theorem C5_witness :
    UserR._id ⟨"b@c.co", "A", "B", hashpw "" 0, "b", "d", "", false,
        some "aaaaaaaaaaaaaaaaaaaaaaaa"⟩
      = UserR._id ⟨"x@y.co", "A", "B", hashpw "" 0, "b", "d", "", false,
        some "aaaaaaaaaaaaaaaaaaaaaaaa"⟩ ∧
    ((studentAdd ⟨⟨"x@y.co", "A", "B", hashpw "" 0, "b", "d", "", false,
        some "aaaaaaaaaaaaaaaaaaaaaaaa"⟩, [], []⟩ "cccccccccccccccccccccccc" false []).2.1).user._id
      = some "aaaaaaaaaaaaaaaaaaaaaaaa" :=
  ⟨C5_id_stability.1 ⟨"x@y.co", "A", "B", hashpw "" 0, "b", "d", "", false,
      some "aaaaaaaaaaaaaaaaaaaaaaaa"⟩ (.pvstr "b@c.co")
      ⟨"b@c.co", "A", "B", hashpw "" 0, "b", "d", "", false,
      some "aaaaaaaaaaaaaaaaaaaaaaaa"⟩ (by decide),
   C5_id_stability.2.2.2.2.2.2.2.2.2.1
      ⟨⟨"x@y.co", "A", "B", hashpw "" 0, "b", "d", "", false,
        some "aaaaaaaaaaaaaaaaaaaaaaaa"⟩, [], []⟩
      "aaaaaaaaaaaaaaaaaaaaaaaa" "cccccccccccccccccccccccc" false [] (by decide)⟩

/-! ## C4 — broad exception handling in the data-access layer -/

/-- Claim C4, counterexample: `get_by_keyword` is a lookup operation, yet
when the store succeeds with no matching document it returns the empty
list, not `None`. -/
theorem C4_counterexample :
    sGetByKeyword (.ok []) 0 = some [] ∧
    (some [] : Option (List (Option StudentR))) ≠ none := by
  exact ⟨rfl, by simp⟩

/-- Claim C4 (amended): `get_by_id`/`get_by_email` return `None` both on a
missing document and on any exception; `get_by_keyword` returns `None` on
an exception but the (possibly empty) list of hydrated matches otherwise;
and every mutating operation returns `False` on any exception. -/
theorem C4_error_masking :
    (∀ salt, sGetById (.error ()) salt = none) ∧
    (∀ salt, sGetById (.ok none) salt = none) ∧
    (∀ salt, sGetByEmail (.error ()) salt = none) ∧
    (∀ salt, sGetByEmail (.ok none) salt = none) ∧
    (∀ salt, sGetByKeyword (.error ()) salt = none) ∧
    (∀ (docs : List StudentDict) (salt : Nat),
      sGetByKeyword (.ok docs) salt = some (docs.map (fun d => studentFromDict d salt))) ∧
    (∀ (s : StudentR) (fresh : String) (store : List StudentDict),
      studentAdd s fresh true store = (false, s, store)) ∧
    sRemove (.error ()) = false ∧
    (∀ s : StudentR, sActivate s (.error ()) = (false, s)) ∧
    (∀ (s : StudentR) (p : PwInput) (salt : Nat),
      (sSetPassword s p salt (.error ())).1 = false) ∧
    (∀ hy : ParentDoc → Option ParentR, pGetById (.error ()) hy = none) ∧
    (∀ hy : ParentDoc → Option ParentR, pGetById (.ok none) hy = none) ∧
    (∀ hy : ParentDoc → Option ParentR, pGetByEmail (.error ()) hy = none) ∧
    (∀ hy : ParentDoc → Option ParentR, pGetByEmail (.ok none) hy = none) := by
  refine ⟨fun _ => rfl, fun _ => rfl, fun _ => rfl, fun _ => rfl, fun _ => rfl,
    fun _ _ => rfl, fun _ _ _ => rfl, rfl, fun _ => rfl, ?_,
    fun _ => rfl, fun _ => rfl, fun _ => rfl, fun _ => rfl⟩
  intro s p salt
  unfold sSetPassword
  cases setPassword s.user p salt <;> rfl

/-! ## Lemmas on `splitOnChar` and `joinChar` -/

/-- `splitOnChar` never returns the empty list of groups. -/
theorem splitOnChar_ne_nil (sep : Char) (l : List Char) : splitOnChar sep l ≠ [] := by
  cases l with
  | nil => simp [splitOnChar]
  | cons c cs =>
    unfold splitOnChar
    split
    · simp
    · split <;> simp

/-- Splitting at the first separator after a separator-free prefix. -/
theorem splitOnChar_append (sep : Char) (a r : List Char)
    (h : ∀ c ∈ a, ¬ c = sep) :
    splitOnChar sep (a ++ sep :: r) = a :: splitOnChar sep r := by
  induction a with
  | nil => simp [splitOnChar]
  | cons x xs ih =>
    have hx : ¬ x = sep := h x (List.mem_cons_self x xs)
    have hxs : ∀ c ∈ xs, ¬ c = sep := fun c hc => h c (List.mem_cons_of_mem x hc)
    simp only [List.cons_append]
    rw [splitOnChar, if_neg (by simpa using hx), ih hxs]

/-- `joinChar` is a retraction of `splitOnChar`. -/
theorem joinChar_splitOnChar (sep : Char) (l : List Char) :
    joinChar sep (splitOnChar sep l) = l := by
  induction l with
  | nil => simp [splitOnChar, joinChar]
  | cons c cs ih =>
    unfold splitOnChar
    by_cases hc : c = sep
    · rw [if_pos (by simpa using hc)]
      cases hsp : splitOnChar sep cs with
      | nil => exact absurd hsp (splitOnChar_ne_nil sep cs)
      | cons g gs =>
        rw [hsp] at ih
        simp only [joinChar]
        rw [ih, hc]
        rfl
    · rw [if_neg (by simpa using hc)]
      cases hsp : splitOnChar sep cs with
      | nil => exact absurd hsp (splitOnChar_ne_nil sep cs)
      | cons g gs =>
        rw [hsp] at ih
        cases gs with
        | nil => simpa [joinChar] using ih
        | cons g2 gs2 => simpa [joinChar] using ih

/-- A werkzeug hash generated with a `$`-free salt verifies against the
password it was generated from. -/
theorem check_generate (p salt : String) (hs : ∀ c ∈ salt.toList, ¬ c = '$') :
    check_password_hash (generate_password_hash p salt) p = some true := by
  unfold check_password_hash generate_password_hash
  have htl : (String.mk ("pbkdf2:sha256:260000".toList ++ '$' :: salt.toList ++
      '$' :: wzPbkdf2 p.toList salt.toList "260000".toList)).toList
      = "pbkdf2:sha256:260000".toList ++ '$' :: (salt.toList ++
      '$' :: wzPbkdf2 p.toList salt.toList "260000".toList) := by
    simp [String.toList]
  rw [htl]
  rw [splitOnChar_append '$' _ _ (by decide)]
  rw [splitOnChar_append '$' _ _ hs]
  cases hsp : splitOnChar '$' (wzPbkdf2 p.toList salt.toList "260000".toList) with
  | nil => exact absurd hsp (splitOnChar_ne_nil _ _)
  | cons g gs =>
    have hjoin : joinChar '$' (g :: gs) = wzPbkdf2 p.toList salt.toList "260000".toList := by
      rw [← hsp]; exact joinChar_splitOnChar _ _
    simp only [hjoin]
    rw [if_pos (by decide)]
    rw [if_pos (by decide)]
    simp

/-! ## C6 — password verification against the stored hash -/

/-- Claim C6, counterexample: in the legacy class, setting a password that
matches the pbkdf2 pattern stores it verbatim, and verifying that very
password then returns `False`, not `True` (the stored digest field cannot
equal a digest recomputed from the whole string). -/
theorem C6_counterexample :
    lVerifyPassword (lSetPassword ⟨"e@x.co", "A", "B", "i", "o"⟩
        "pbkdf2:sha256:1$b$c" "s0") "pbkdf2:sha256:1$b$c" = some false ∧
    (some false : Option Bool) ≠ some true := by
  constructor
  · decide
  · decide

/-- Claim C6 (amended): in the backend class, verification is exactly
`bcrypt.checkpw` against the stored hash, every string assigned through
the setter then validates, and any candidate whose hash differs from the
stored hash is rejected; in the legacy class the round trip holds for
passwords that do not match the pbkdf2 pattern (matching passwords are
stored verbatim and need not verify). -/
theorem C6_password_verification :
    (∀ (u : UserR) (p : String) (salt : Nat) (u' : UserR),
      setPassword u (.pstr p) salt = .ok u' → validate_password u' p = true) ∧
    (∀ (u : UserR) (q : String), validate_password u q = checkpw q u._password) ∧
    (∀ (u : UserR) (q : String),
      hashpw q u._password.salt ≠ u._password → validate_password u q = false) ∧
    (∀ (u : LUserR) (p salt : String),
      matchesPbkdf2 p = false → (∀ c ∈ salt.toList, ¬ c = '$') →
      lVerifyPassword (lSetPassword u p salt) p = some true) ∧
    (∀ (u : LUserR) (q : String),
      lVerifyPassword u q = check_password_hash u.password_hash q) := by
  refine ⟨?_, fun u q => rfl, ?_, ?_, fun u q => rfl⟩
  · intro u p salt u' h
    injection h with h
    rw [← h]
    simp [validate_password, checkpw, hashpw]
  · intro u q h
    simp only [validate_password, checkpw]
    exact beq_eq_false_iff_ne.mpr h
  · intro u p salt hm hs
    unfold lVerifyPassword lSetPassword
    rw [if_neg (by simp [hm])]
    exact check_generate p salt hs

/-- Witness for C6: the backend round trip and the legacy round trip at
concrete inputs, with every hypothesis discharged. -/
theorem C6_witness :
    validate_password ⟨"e@x.co", "A", "B", hashpw "pw" 5, "b", "d", "", false, none⟩ "pw" = true ∧
    lVerifyPassword (lSetPassword ⟨"e@x.co", "A", "B", "i", "o"⟩ "pw" "s0") "pw" = some true :=
  ⟨C6_password_verification.1 ⟨"e@x.co", "A", "B", hashpw "" 0, "b", "d", "", false, none⟩
      "pw" 5 ⟨"e@x.co", "A", "B", hashpw "pw" 5, "b", "d", "", false, none⟩ rfl,
   C6_password_verification.2.2.2.1 ⟨"e@x.co", "A", "B", "i", "o"⟩ "pw" "s0"
      (by decide) (by decide)⟩

/-! ## C7 — the two single-document updates of `add_submission` -/

/-- `find_one_and_update`: the first matching element is rewritten, all
others are untouched. -/
theorem updateFirst_first {α : Type} (p : α → Bool) (f : α → α)
    (pre : List α) (c : α) (post : List α)
    (hpre : ∀ x ∈ pre, p x = false) (hc : p c = true) :
    updateFirst p f (pre ++ c :: post) = pre ++ f c :: post := by
  induction pre with
  | nil => simp [updateFirst, hc]
  | cons a as ih =>
    have ha : p a = false := hpre a (List.mem_cons_self a as)
    simp only [List.cons_append, updateFirst, ha]
    simp [ih (fun x hx => hpre x (List.mem_cons_of_mem a hx))]

/-- Claim C7: one call to `add_submission` performs exactly two separate
single-document updates: the submission dictionary is appended to the
`submissions` array of the first matching assignment inside the matching
course document, and the string `course_id_assignmentid_submissionid` is
appended to the student's own `assignments` list; every other document, and
every other field of the two touched documents, is unchanged. -/
theorem C7_add_submission (db : SchoolDB) (selfId cid : String)
    (sub : Submission) (newSubId : String)
    (cpre : List CourseDoc) (c : CourseDoc) (cpost : List CourseDoc)
    (apre : List AssignmentDoc) (a : AssignmentDoc) (apost : List AssignmentDoc)
    (spre : List StudentDict) (sd : StudentDict) (spost : List StudentDict)
    (hc : db.courses = cpre ++ c :: cpost)
    (hcpre : ∀ x ∈ cpre, courseMatch cid sub.assignment_id x = false)
    (hcm : courseMatch cid sub.assignment_id c = true)
    (ha : c.assignments = apre ++ a :: apost)
    (hapre : ∀ x ∈ apre, (x.id == sub.assignment_id) = false)
    (ham : (a.id == sub.assignment_id) = true)
    (hs : db.students = spre ++ sd :: spost)
    (hspre : ∀ x ∈ spre, (x._id == some selfId) = false)
    (hsm : (sd._id == some selfId) = true) :
    add_submission db selfId cid sub newSubId =
      ⟨cpre ++ { c with assignments := apre ++ { a with submissions :=
          a.submissions ++ [⟨sub.assignment_id, newSubId, sub.payload⟩] } :: apost } :: cpost,
       spre ++ { sd with assignments :=
          sd.assignments ++ [cid ++ "_" ++ sub.assignment_id ++ "_" ++ newSubId] } :: spost⟩ := by
  unfold add_submission
  simp only [hc, hs]
  rw [updateFirst_first _ _ _ _ _ hcpre hcm]
  rw [updateFirst_first _ _ _ _ _ hspre hsm]
  unfold pushSubmission
  rw [ha]
  rw [updateFirst_first _ _ _ _ _ hapre ham]
  rfl

/-- Witness for C7: a one-course, one-student store, every hypothesis
discharged concretely. -/
theorem C7_witness :
    add_submission
        ⟨[⟨"C1", [⟨"A1", [], "course-rest"⟩], "c-rest"⟩],
         [⟨"e@x.co", "A", "B", .strV "", false, [], [], some "sid0"⟩]⟩
        "sid0" "C1" ⟨"A1", "old", "data"⟩ "N1"
      = ⟨[⟨"C1", [⟨"A1", [⟨"A1", "N1", "data"⟩], "course-rest"⟩], "c-rest"⟩],
         [⟨"e@x.co", "A", "B", .strV "", false, [], ["C1_A1_N1"], some "sid0"⟩]⟩ := by
  have h := C7_add_submission
    ⟨[⟨"C1", [⟨"A1", [], "course-rest"⟩], "c-rest"⟩],
     [⟨"e@x.co", "A", "B", .strV "", false, [], [], some "sid0"⟩]⟩
    "sid0" "C1" ⟨"A1", "old", "data"⟩ "N1"
    [] ⟨"C1", [⟨"A1", [], "course-rest"⟩], "c-rest"⟩ []
    [] ⟨"A1", [], "course-rest"⟩ []
    [] ⟨"e@x.co", "A", "B", .strV "", false, [], [], some "sid0"⟩ []
    rfl (by simp) (by decide) rfl (by simp) (by decide) rfl (by simp) (by decide)
  simpa using h

/-- The password stored by a successful `Student.__init__` with a string
password is the bcrypt hash of that string. -/
theorem studentInit_ok_password {email : PyPropVal} {first last p : String}
    {idv : Option IdInput} {cs as : Option (List String)} {salt : Nat} {st : StudentR}
    (h : studentInit email first last (some (.pstr p)) idv cs as salt = .ok st) :
    st.user._password = hashpw p salt := by
  unfold studentInit at h
  simp only [Bind.bind, Except.bind, Pure.pure, Except.pure] at h
  split at h
  · exact absurd h (by simp)
  next u hU =>
    injection h with h
    rw [← h]
    exact userInit_ok_password hU

/-- Full characterisation of the `to_dict`/`from_dict` round trip of a
student whose email passes validation: names, ids, courses and assignments
survive, while the password collapses to the hash of the empty string and
bio, date of birth, profile picture and activation reset to their
defaults. -/
theorem studentFromDict_toDict (s : StudentR) (salt : Nat)
    (h : emailMatch s.user._email = true) :
    studentFromDict (studentToDict s) salt =
      some ⟨⟨s.user._email, s.user._first_name, s.user._last_name, hashpw "" salt,
        "A short bio.", "14-03-1879", "", false, s.user._id⟩, s.courses, s.assignments⟩ := by
  cases hid : s.user._id with
  | none =>
    simp [studentFromDict, studentInit, userInit, studentToDict, dictPwToInput,
      setEmail, h, setPassword, setBio, setDateOfBirth, setProfilePicture,
      setActivated, setId, Bind.bind, Except.bind, Pure.pure, Except.pure,
      Option.getD, hid]
  | some i =>
    simp [studentFromDict, studentInit, userInit, studentToDict, dictPwToInput,
      setEmail, h, setPassword, setBio, setDateOfBirth, setProfilePicture,
      setActivated, setId, Bind.bind, Except.bind, Pure.pure, Except.pure,
      Option.getD, hid]

/-! ## C9 — the serialised password is always empty -/

/-- Claim C9: `Student.to_dict` writes the empty string under `"password"`
whatever the stored hash is; the round trip through `from_dict` therefore
re-hashes the empty string instead of restoring the password, and every
document inserted by `Student.add` carries an empty password. -/
theorem C9_serialised_password :
    (∀ s : StudentR, (studentToDict s).password = .strV "") ∧
    (∀ (s : StudentR) (salt : Nat), emailMatch s.user._email = true →
      studentFromDict (studentToDict s) salt =
        some ⟨⟨s.user._email, s.user._first_name, s.user._last_name, hashpw "" salt,
          "A short bio.", "14-03-1879", "", false, s.user._id⟩, s.courses, s.assignments⟩) ∧
    (∀ (s : StudentR) (salt : Nat) (s' : StudentR),
      studentFromDict (studentToDict s) salt = some s' →
      s.user._password.data ≠ "" → s'.user._password ≠ s.user._password) ∧
    (∀ (s : StudentR) (fresh : String) (store : List StudentDict),
      ∃ d : StudentDict, (studentAdd s fresh false store).2.2 = store ++ [d] ∧
        d.password = .strV "") := by
  refine ⟨fun s => rfl, studentFromDict_toDict, ?_, ?_⟩
  · intro s salt s' h hp
    unfold studentFromDict at h
    cases hI : studentInit (.pvstr (studentToDict s).email) (studentToDict s).first_name
        (studentToDict s).last_name (some (dictPwToInput (studentToDict s).password))
        ((studentToDict s)._id.map IdInput.oid) (some (studentToDict s).courses)
        (some (studentToDict s).assignments) salt with
    | error e => rw [hI] at h; simp at h
    | ok st =>
      rw [hI] at h
      injection h with h
      have hpw : s'.user._password = hashpw "" salt := h ▸ studentInit_ok_password hI
      intro hEq
      exact hp (by rw [← hEq, hpw]; rfl)
  · intro s fresh store
    cases hid : s.user._id with
    | none =>
      refine ⟨{ studentToDict s with _id := some fresh }, ?_, rfl⟩
      simp [studentAdd, studentToDict, setId, hid]
    | some i =>
      refine ⟨{ studentToDict s with _id := some i }, ?_, rfl⟩
      simp [studentAdd, studentToDict, setId, hid]

/-- Witness for C9: the round trip at a concrete student loses the
password, exercising the second conjunct with its hypothesis discharged. -/
theorem C9_witness :
    studentFromDict (studentToDict ⟨⟨"e@x.co", "A", "B", hashpw "pw" 3, "b", "d", "p",
        true, some "aaaaaaaaaaaaaaaaaaaaaaaa"⟩, ["c1"], ["a1"]⟩) 9
      = some ⟨⟨"e@x.co", "A", "B", hashpw "" 9, "A short bio.", "14-03-1879", "",
        false, some "aaaaaaaaaaaaaaaaaaaaaaaa"⟩, ["c1"], ["a1"]⟩ ∧
    hashpw "" 9 ≠ hashpw "pw" 3 :=
  ⟨C9_serialised_password.2.1 ⟨⟨"e@x.co", "A", "B", hashpw "pw" 3, "b", "d", "p",
      true, some "aaaaaaaaaaaaaaaaaaaaaaaa"⟩, ["c1"], ["a1"]⟩ 9 (by decide),
   by decide⟩
